import Mathlib

/-!
# Verification of the ghl-form-validations validation/confidence pipeline

Shallow embedding, in Lean 4, of the identifier-validation core of the
repository `Luciano-MBtek/ghl-form-validations`:

* the TTL cache (`src/lib/cache.ts`: `getCache` / `setCache`),
* the fixed-window rate limiter (`src/lib/rateLimit.ts`: `rateLimit`),
* the email denylist (`src/lib/emailBlocklist.ts`),
* the Mailboxlayer email adapter (`src/lib/mailboxlayer.ts`, the
  hard-block/confidence revision: `computeConfidence`, `mailboxlayerCheck`),
* the Numverify phone adapter (`src/lib/numverify.ts`: `numverifyCheck`),
* the PhoneValidator adapter with its NANP structural pre-check
  (`src/lib/phonevalidator.ts`: `normalizeDigits`, `nanpPrecheckUS`,
  `mustBeValidUSLength`, `phonevalidatorCheck`),
* the validation orchestrator (`src/lib/validate.ts`: `validateEmail`,
  `validatePhone`, and the unknown-verdict fallback resolver).

Modelling conventions:

* JavaScript `undefined`/absent record fields are `Option.none`; the
  tri-state `valid` field (`true | false | null`) is `Option Bool` with
  `none` for `null`.
* Timestamps (`Date.now()`) and durations are `Nat` milliseconds; each call
  receives its `now` explicitly.
* Provider scores are `Rat` (the source holds them in `[0,1]`).
* Network effects are abstracted as oracle parameters: an adapter takes the
  outcome of its single `fetch` (success data, or `failure` standing for any
  thrown exception: network error, abort on timeout, JSON-parse error), and
  the orchestrator takes the adapter / MX-resolver as deterministic function
  parameters, threading an explicit state that counts adapter invocations
  and holds the cache, so that frame claims ("the provider is never
  invoked", "no cache entry is written") are statable.
* Environment-derived configuration constants are structure parameters with
  the source's defaults (`MLConfig`, `NVConfig`); constants that are fixed
  in the source (`BLOCK_ROLE_EMAILS = true`, the fallback enable flags) are
  fixed definitions.
-/

/-- Confidence bucket, `src/lib/validationTypes.ts` (`Confidence`). -/
inductive Confidence where
  | good
  | medium
  | low
  | unknown
deriving DecidableEq, Repr

/-- Email verdict, `src/lib/validationTypes.ts` (`EmailResult`).  Every field
that the TypeScript type marks optional (or that a code path may leave
unset at runtime) is an `Option`; `valid` is the tri-state
`true | false | null` with `none` for `null`.  `confidence` is an `Option`
because the pre-confidence revisions of the orchestrator construct verdict
records without it. -/
structure EmailResult where
  valid : Option Bool
  reason : Option String
  score : Option Rat
  confidence : Option Confidence
  disposable : Option Bool
  role : Option Bool
  catchAll : Option Bool
  domain : Option String
deriving DecidableEq, Repr

/-- Phone verdict, `src/lib/validationTypes.ts` (`PhoneResult`). -/
structure PhoneResult where
  valid : Option Bool
  reason : Option String
  lineType : Option String
  confidence : Option Confidence
  country : Option String
  normalized : Option String
deriving DecidableEq, Repr

/-! ## Association-list maps

`cache.ts` and `rateLimit.ts` each hold a JavaScript `Map`.  We model a
`Map` as an association list without duplicate use of a key: `aset`
replaces in place (as `Map.set` does), `aerase` removes the key's entry
(as `Map.delete`). -/

/-- Lookup in an association list (`Map.get`). -/
def alookup {α : Type} (k : String) : List (String × α) → Option α
  | [] => none
  | (k', v) :: t => if k' = k then some v else alookup k t

/-- Insert-or-replace in an association list (`Map.set`). -/
def aset {α : Type} (k : String) (v : α) : List (String × α) → List (String × α)
  | [] => [(k, v)]
  | (k', v') :: t => if k' = k then (k, v) :: t else (k', v') :: aset k v t

/-- Remove a key's entry from an association list (`Map.delete`). -/
def aerase {α : Type} (k : String) : List (String × α) → List (String × α)
  | [] => []
  | (k', v') :: t => if k' = k then t else (k', v') :: aerase k t

theorem alookup_aset {α : Type} (k k' : String) (v : α) (l : List (String × α)) :
    alookup k (aset k' v l) = if k' = k then some v else alookup k l := by
  induction l with
  | nil => simp [aset, alookup]
  | cons p t ih =>
    obtain ⟨hk, hv⟩ := p
    by_cases h2 : k' = k
    · subst h2
      by_cases h1 : hk = k' <;> simp [aset, alookup, h1, ih]
    · by_cases h1 : hk = k'
      · subst h1
        simp [aset, alookup, h2]
      · simp [aset, alookup, h1, h2, ih]


/-! ## JavaScript string primitives

Kernel-computable character-list implementations of the string methods the
source uses (`trim`, `toLowerCase`, `toUpperCase`, `split`, `startsWith`,
`endsWith`, `includes`), with ASCII semantics (`\s` is
`Char.isWhitespace`; the identifiers the pipeline handles are ASCII). -/

/-- `String.prototype.trim` on a character list. -/
def trimChars (l : List Char) : List Char :=
  ((l.dropWhile Char.isWhitespace).reverse.dropWhile Char.isWhitespace).reverse

/-- `String.prototype.trim`. -/
def jsTrim (s : String) : String := String.mk (trimChars s.data)

/-- `String.prototype.toLowerCase` (ASCII). -/
def jsToLower (s : String) : String := String.mk (s.data.map Char.toLower)

/-- `String.prototype.toUpperCase` (ASCII). -/
def jsToUpper (s : String) : String := String.mk (s.data.map Char.toUpper)

/-- `String.prototype.split` with a one-character separator, on character
lists: `"".split(sep)` is `[""]`, and separators delimit (possibly empty)
fields. -/
def splitChars (sep : Char) : List Char → List (List Char)
  | [] => [[]]
  | c :: t =>
      if c = sep then [] :: splitChars sep t
      else
        match splitChars sep t with
        | [] => [[c]]
        | h :: r => (c :: h) :: r

/-- `String.prototype.split` with a one-character separator. -/
def jsSplit (sep : Char) (s : String) : List String :=
  (splitChars sep s.data).map String.mk

/-- `String.prototype.startsWith`. -/
def jsStartsWith (s p : String) : Bool := p.data.isPrefixOf s.data

/-- `String.prototype.endsWith`. -/
def jsEndsWith (s p : String) : Bool := p.data.isSuffixOf s.data

/-! ## TTL cache (`src/lib/cache.ts`)

```ts
export function getCache<T = any>(key: string): T | undefined {
  const entry = cacheStore.get(key);
  if (!entry) return undefined;
  if (Date.now() > entry.expiresAt) { cacheStore.delete(key); return undefined; }
  return entry.value as T;
}
export function setCache<T = any>(key: string, value: T, ttlMs: number): void {
  cacheStore.set(key, { value, expiresAt: Date.now() + ttlMs });
}
```
`getCache` also returns the (possibly lazily evicted) store. -/

/-- A cache entry (`CacheEntry<T>` of `cache.ts`). -/
structure CacheEntry (α : Type) where
  value : α
  expiresAt : Nat
deriving DecidableEq, Repr

/-- The cache store for values of one type. -/
abbrev Cache (α : Type) : Type := List (String × CacheEntry α)

/-- `getCache` of `cache.ts`, with lazy eviction of an expired entry. -/
def getCache {α : Type} (store : Cache α) (key : String) (now : Nat) :
    Option α × Cache α :=
  match alookup key store with
  | none => (none, store)
  | some entry =>
      if now > entry.expiresAt then (none, aerase key store)
      else (some entry.value, store)

/-- `setCache` of `cache.ts`. -/
def setCache {α : Type} (store : Cache α) (key : String) (value : α)
    (ttlMs : Nat) (now : Nat) : Cache α :=
  aset key ⟨value, now + ttlMs⟩ store

/-! ## Fixed-window rate limiter (`src/lib/rateLimit.ts`)

```ts
export async function rateLimit(ip, limit, windowMs) {
  const now = Date.now();
  const key = ip || "unknown";
  let window = windows.get(key);
  if (!window || now > window.resetAt) {
    window = { count: 0, resetAt: now + windowMs };
    windows.set(key, window);
  }
  if (window.count >= limit) {
    return { allowed: false, remaining: 0, resetAt: window.resetAt };
  }
  window.count += 1;
  return { allowed: true, remaining: Math.max(0, limit - window.count),
           resetAt: window.resetAt };
}
```
`Math.max(0, limit - count)` is `Nat` truncated subtraction.  The function
is total by construction (it never throws). -/

/-- A per-client window (`Window` of `rateLimit.ts`). -/
structure Window where
  count : Nat
  resetAt : Nat
deriving DecidableEq, Repr

/-- The rate limiter's return value. -/
structure RateResult where
  allowed : Bool
  remaining : Nat
  resetAt : Nat
deriving DecidableEq, Repr

/-- `rateLimit` of `src/lib/rateLimit.ts`; returns the decision and the
updated window map. -/
def rateLimit (st : List (String × Window)) (ip : String) (limit : Nat)
    (windowMs : Nat) (now : Nat) : RateResult × List (String × Window) :=
  let key := if ip = "" then "unknown" else ip
  let wst : Window × List (String × Window) :=
    match alookup key st with
    | none => (Window.mk 0 (now + windowMs), aset key (Window.mk 0 (now + windowMs)) st)
    | some w =>
        if now > w.resetAt then
          (Window.mk 0 (now + windowMs), aset key (Window.mk 0 (now + windowMs)) st)
        else (w, st)
  let window := wst.1
  let st1 := wst.2
  if window.count ≥ limit then
    ({ allowed := false, remaining := 0, resetAt := window.resetAt }, st1)
  else
    ({ allowed := true, remaining := limit - (window.count + 1),
       resetAt := window.resetAt },
     aset key (Window.mk (window.count + 1) window.resetAt) st1)

/-! ## String helpers shared by the validation modules -/

/-- `getDomain` (identical in `emailBlocklist.ts` and `validate.ts`):
`const at = email.lastIndexOf("@"); if (at < 0) return null;`
then the slice after the last `@`, trimmed and lowercased, or `null` when
empty.  `jsSplit '@'` has at least two parts exactly when the string
contains an `@`, and its last part is the slice after the last `@`. -/
def getDomain (email : String) : Option String :=
  let parts := jsSplit '@' email
  if parts.length ≥ 2 then
    let d := jsToLower (jsTrim (parts.getLastD ""))
    if d = "" then none else some d
  else none

/-- The characters `[^\s@]` of the RFC-lite regex of `validate.ts`. -/
def emailAtomChar (c : Char) : Bool :=
  !c.isWhitespace && c ≠ '@'

/-- The test `/^[^\s@]+@[^\s@]+\.[^\s@]{2,}$/.test(email)` of
`isPlausibleEmail` (`src/lib/validate.ts`).  A string matches exactly when
it has exactly one `@` (neither side may contain one), a non-empty
whitespace-free local part, and a whitespace-free remainder containing a
dot with at least one character before it and at least two after it
(backtracking makes the greedy quantifiers equivalent to this existential
reading). -/
def regexLiteTest (email : String) : Bool :=
  match jsSplit '@' email with
  | [l, d] =>
      l.length ≥ 1 && l.data.all emailAtomChar && d.data.all emailAtomChar &&
        (List.range d.length).any (fun i =>
          d.data.getD i ' ' = '.' && 1 ≤ i && i + 3 ≤ d.length)
  | _ => false

/-- `pat` occurs as a contiguous substring of `l` (JavaScript
`String.prototype.includes`). -/
def listInfix (pat : List Char) : List Char → Bool
  | [] => decide (pat = [])
  | c :: t => pat.isPrefixOf (c :: t) || listInfix pat t

/-- `isPlausibleEmail` of `src/lib/validate.ts`:
length bound 254, the RFC-lite regex, local part at most 64, and no `..`
in the domain.  `email.split("@")` destructured to `[local, domain]`;
after the regex there are exactly two parts. -/
def isPlausibleEmail (email : String) : Bool :=
  if email = "" || email.length > 254 then false
  else if !regexLiteTest email then false
  else
    match jsSplit '@' email with
    | [l, d] =>
        l ≠ "" && d ≠ "" && l.length ≤ 64 && !listInfix "..".data d.data
    | _ => false

/-- `isPlausiblePhoneBare` of `src/lib/validate.ts`: 7–15 digits after
stripping non-digits (ITU E.164 range). -/
def isPlausiblePhoneBare (input : String) : Bool :=
  if input = "" then false
  else
    let digits := input.data.filter Char.isDigit
    decide (7 ≤ digits.length) && decide (digits.length ≤ 15)

/-! ## Email denylist (`src/lib/emailBlocklist.ts`) -/

/-- `BLOCKED_EMAIL_PREFIXES` of `src/lib/emailBlocklist.ts`. -/
def BLOCKED_EMAIL_PREFIXES : List String := ["motivation.usa"]

/-- `BLOCKED_EMAIL_DOMAINS` of `src/lib/emailBlocklist.ts`. -/
def BLOCKED_EMAIL_DOMAINS : List String :=
  ["mailinator.com", "tempmail.com", "guerrillamail.com", "10minutemail.com",
   "yopmail.com", "dayrep.com", "rhyta.com", "armyspy.com", "tiffincrane.com"]

/-- `BlockCheck` of `src/lib/emailBlocklist.ts`. -/
structure BlockCheck where
  blocked : Bool
  reason : Option String
deriving DecidableEq, Repr

/-- `isBlockedEmailPrefix` of `src/lib/emailBlocklist.ts`: case-insensitive
`startsWith` of the local part (before the first `@`; `at <= 0` is not
blocked) against the configured list. -/
def isBlockedEmailPrefix (email : Option String) : BlockCheck :=
  match email with
  | none => ⟨false, none⟩
  | some e =>
      let trimmed := jsToLower (jsTrim e)
      match trimmed.data.findIdx? (· = '@') with
      | none => ⟨false, none⟩
      | some i =>
          if i = 0 then ⟨false, none⟩
          else
            let localPart := String.mk (trimmed.data.take i)
            if BLOCKED_EMAIL_PREFIXES.any
                (fun p => jsStartsWith localPart (jsToLower p))
            then ⟨true, some "blocked_prefix"⟩ else ⟨false, none⟩

/-- `isBlockedEmailDomain` of `src/lib/emailBlocklist.ts`: exact match in the
configured set, or equality / dot-suffix match against any entry. -/
def isBlockedEmailDomain (email : Option String) : BlockCheck :=
  match email with
  | none => ⟨false, none⟩
  | some e =>
      match getDomain e with
      | none => ⟨false, none⟩
      | some d =>
          if BLOCKED_EMAIL_DOMAINS.contains d ||
              BLOCKED_EMAIL_DOMAINS.any (fun b => d = b || jsEndsWith d ("." ++ b))
          then ⟨true, some "blocked_domain"⟩ else ⟨false, none⟩

/-! ## Trusted domains, role addresses and configuration constants
(`src/lib/validate.ts`, `src/lib/config.ts`) -/

/-- `BLOCK_ROLE_EMAILS` of `src/lib/config.ts` (fixed `true`). -/
def BLOCK_ROLE_EMAILS : Bool := true

/-- `ENABLE_TRUSTED_EMAIL_FALLBACK` of `src/lib/config.ts` (fixed `true`). -/
def ENABLE_TRUSTED_EMAIL_FALLBACK : Bool := true

/-- `ENABLE_MX_FALLBACK` of `src/lib/config.ts` (fixed `true`). -/
def ENABLE_MX_FALLBACK : Bool := true

/-- `TRUSTED_EMAIL_DOMAINS` of `src/lib/validate.ts`. -/
def TRUSTED_EMAIL_DOMAINS : List String :=
  ["gmail.com", "googlemail.com", "outlook.com", "hotmail.com", "live.com",
   "msn.com", "yahoo.com", "ymail.com", "icloud.com", "me.com",
   "proton.me", "protonmail.com"]

/-- The role local parts of `isRoleEmail` (`src/lib/validate.ts`). -/
def ROLE_LOCAL_PARTS : List String :=
  ["info", "sales", "support", "admin", "contact", "help", "noreply", "no-reply"]

/-- `isRoleEmail` of `src/lib/validate.ts`: with the role policy enabled, the
lowercased local part (before the first `@`) equals a role word or starts
with `word.`. -/
def isRoleEmail (email : String) : Bool :=
  if !BLOCK_ROLE_EMAILS then false
  else
    let localPart := jsToLower ((jsSplit '@' email).headD "")
    ROLE_LOCAL_PARTS.any
      (fun p => localPart = p || jsStartsWith localPart (p ++ "."))

/-! ## Mailboxlayer email adapter (`src/lib/mailboxlayer.ts`)

The hard-block/confidence revision: only definitive undeliverable signals
force `valid = false`; everything else is `valid = true` with a confidence
bucket computed from the score.  The provider interaction is abstracted as
`hasKey` (is `MAILBOXLAYER_API_KEY` configured) and an `MLFetch` outcome:
`failure` stands for any exception the `try` block catches (network error,
abort by the `VALIDATION_TIMEOUT_MS` timer, JSON-parse error), `success`
for a parsed JSON response. -/

/-- Environment-derived Mailboxlayer configuration (`src/lib/config.ts`):
`EMAIL_SCORE_GOOD` (default 0.80), `EMAIL_SCORE_MED` (default 0.50),
`BLOCK_DISPOSABLE` (default false), `BLOCK_ROLE_EMAILS` (true). -/
structure MLConfig where
  emailScoreGood : Rat
  emailScoreMed : Rat
  blockDisposable : Bool
  blockRoleEmails : Bool
deriving DecidableEq, Repr

/-- The defaults of `src/lib/config.ts`. -/
def defaultMLConfig : MLConfig :=
  { emailScoreGood := 4/5, emailScoreMed := 1/2,
    blockDisposable := false, blockRoleEmails := true }

/-- A parsed Mailboxlayer JSON response: the destructured fields
`format_valid, mx_found, smtp_check, catch_all, score, disposable, role,
error` (each possibly absent; `error` is its JavaScript truthiness). -/
structure MLData where
  format_valid : Option Bool
  mx_found : Option Bool
  smtp_check : Option Bool
  catch_all : Option Bool
  score : Option Rat
  disposable : Option Bool
  role : Option Bool
  error : Bool
deriving DecidableEq, Repr

/-- Outcome of the adapter's `fetch`/`res.json()`: a parsed response, or an
exception (caught by the adapter's `catch`). -/
inductive MLFetch where
  | failure
  | success (data : MLData)
deriving DecidableEq, Repr

/-- `computeConfidence` of `src/lib/mailboxlayer.ts`:
no numeric score → `unknown`; `score ≥ EMAIL_SCORE_GOOD` → `good`;
`score ≥ EMAIL_SCORE_MED` → `medium`; otherwise `low`. -/
def computeConfidence (cfg : MLConfig) : Option Rat → Confidence
  | none => .unknown
  | some s =>
      if cfg.emailScoreGood ≤ s then .good
      else if cfg.emailScoreMed ≤ s then .medium
      else .low

/-- `email.split("@")[1]`: the second part of the split, if any. -/
def emailSplitDomain (email : String) : Option String :=
  (jsSplit '@' email).get? 1

/-- `mailboxlayerCheck` of `src/lib/mailboxlayer.ts` (the `result` field of
its return value; the `raw` debugging payload is dropped).  The JavaScript
truthiness tests `!!disposable`, `!!role` on the possibly-absent fields are
`= some true`. -/
def mailboxlayerCheck (cfg : MLConfig) (hasKey : Bool) (fetch : MLFetch)
    (email : String) : EmailResult :=
  if !hasKey then
    { valid := none, reason := some "provider_missing", score := none,
      confidence := some .unknown, disposable := none, role := none,
      catchAll := none, domain := none }
  else
    match fetch with
    | .failure =>
        { valid := none, reason := some "timeout_soft_pass", score := none,
          confidence := some .unknown, disposable := none, role := none,
          catchAll := none, domain := none }
    | .success data =>
        if data.error then
          { valid := none, reason := some "provider_error", score := none,
            confidence := some .unknown, disposable := none, role := none,
            catchAll := none, domain := none }
        else
          let badFormat := data.format_valid ≠ some true
          let noMx := data.mx_found ≠ some true
          let smtpFail := data.smtp_check = some false
          let disposableBlocked := data.disposable = some true ∧ cfg.blockDisposable
          let roleBlocked := data.role = some true ∧ cfg.blockRoleEmails
          if badFormat ∨ noMx ∨ smtpFail ∨ disposableBlocked ∨ roleBlocked then
            let reason :=
              if badFormat then "bad_format"
              else if noMx then "no_mx"
              else if smtpFail then "smtp_fail"
              else if disposableBlocked then "disposable"
              else "role"
            { valid := some false, reason := some reason, score := data.score,
              confidence := some .low, disposable := data.disposable,
              role := data.role, catchAll := data.catch_all,
              domain := emailSplitDomain email }
          else
            { valid := some true, reason := some "", score := data.score,
              confidence := some (computeConfidence cfg data.score),
              disposable := data.disposable, role := data.role,
              catchAll := data.catch_all, domain := emailSplitDomain email }

/-! ## Numverify phone adapter (`src/lib/numverify.ts`) -/

/-- Environment-derived Numverify configuration (`src/lib/config.ts`):
`BLOCK_VOIP` (env, default false in the confidence-era config),
`ALLOW_LANDLINE` (fixed true). -/
structure NVConfig where
  blockVoip : Bool
  allowLandline : Bool
deriving DecidableEq, Repr

/-- A parsed Numverify JSON response: the destructured fields
`valid, international_format, country_code, line_type`. -/
structure NVData where
  valid : Option Bool
  international_format : Option String
  country_code : Option String
  line_type : Option String
deriving DecidableEq, Repr

/-- Outcome of the Numverify `fetch`/`res.json()`. -/
inductive NVFetch where
  | failure
  | success (data : NVData)
deriving DecidableEq, Repr

/-- JavaScript truthiness of a possibly-absent string. -/
def truthyStr : Option String → Bool
  | none => false
  | some s => s ≠ ""

/-- `numverifyCheck` of `src/lib/numverify.ts` (the `result` field of its
return value).  `country` is the optional `country` argument with `""` for
an absent one (the orchestrator always passes the uppercased country code,
possibly empty). -/
def numverifyCheck (cfg : NVConfig) (hasKey : Bool) (fetch : NVFetch)
    (country : String) : PhoneResult :=
  if !hasKey then
    { valid := none, reason := some "provider_missing", lineType := none,
      confidence := some .unknown, country := none, normalized := none }
  else
    match fetch with
    | .failure =>
        { valid := none, reason := some "timeout_soft_pass", lineType := none,
          confidence := some .unknown, country := none, normalized := none }
    | .success data =>
        if data.valid ≠ some true then
          { valid := some false, reason := some "invalid_number",
            lineType := none, confidence := some .low, country := none,
            normalized := none }
        else if country ≠ "" ∧ truthyStr data.country_code ∧
            (jsToUpper (data.country_code.getD "") ≠ jsToUpper country) then
          { valid := some false, reason := some "country_mismatch",
            lineType := none, confidence := some .low, country := none,
            normalized := none }
        else
          let lt := jsToLower (data.line_type.getD "")
          if lt = "voip" ∧ !cfg.blockVoip then
            { valid := some true, reason := some "", lineType := some lt,
              confidence := some .medium, country := data.country_code,
              normalized := data.international_format }
          else if lt = "landline" ∧ !cfg.allowLandline then
            { valid := some false, reason := some "line_type_blocked",
              lineType := some lt, confidence := some .low,
              country := data.country_code,
              normalized := data.international_format }
          else if lt = "voip" ∧ cfg.blockVoip then
            { valid := some false, reason := some "voip_blocked",
              lineType := some lt, confidence := some .low,
              country := data.country_code,
              normalized := data.international_format }
          else
            { valid := some true, reason := some "", lineType := some lt,
              confidence := some .good, country := data.country_code,
              normalized := data.international_format }

/-! ## PhoneValidator adapter and NANP pre-check (`src/lib/phonevalidator.ts`) -/

/-- `PhonePrecheckResult` of `src/lib/phonevalidator.ts`. -/
structure PhonePrecheckResult where
  ok : Bool
  reason : Option String
  normalized : Option String
deriving DecidableEq, Repr

/-- `normalizeDigits` of `src/lib/phonevalidator.ts`:
`(input.match(/\d/g) ?? []).join("")`. -/
def normalizeDigits (input : String) : String :=
  String.mk (input.data.filter Char.isDigit)

/-- The conditional strip of one leading `'1'` in `nanpPrecheckUS`:
`if (digits.length === 11 && digits.startsWith("1")) digits = digits.slice(1)`. -/
def nanpStrip (digits : String) : String :=
  if digits.length = 11 ∧ jsStartsWith digits "1" then
    String.mk (digits.data.drop 1)
  else digits

/-- `charCodeAt(i) - 48` of a digits-only string (its characters are `'0'`
to `'9'`, so the `Nat` subtraction never truncates). -/
def digitValAt (digits : String) (i : Nat) : Nat :=
  (digits.data.getD i ' ').toNat - 48

/-- `nanpPrecheckUS` of `src/lib/phonevalidator.ts`: normalize to digits,
strip one leading country `'1'` from an 11-digit number, then require
exactly 10 digits, an area code and a central-office (exchange) code not
starting in 0/1, and no `N1x` central-office code (the code's N11 guard
tests only the 4th and 5th digits). -/
def nanpPrecheckUS (input : String) : PhonePrecheckResult :=
  let digits := nanpStrip (normalizeDigits input)
  if digits.length ≠ 10 then
    { ok := false,
      reason := some "US numbers must have 10 digits (area code + number). If you included +1, remove it.",
      normalized := none }
  else
    let areaFirst := digitValAt digits 0
    let exchangeFirst := digitValAt digits 3
    let exchangeMid := digitValAt digits 4
    if areaFirst < 2 ∨ areaFirst > 9 then
      { ok := false, reason := some "Invalid area code format.", normalized := none }
    else if exchangeFirst < 2 ∨ exchangeFirst > 9 then
      { ok := false, reason := some "Invalid central office code format.",
        normalized := none }
    else if exchangeMid = 1 ∧ 2 ≤ exchangeFirst ∧ exchangeFirst ≤ 9 then
      { ok := false, reason := some "Central office code cannot be an N11 code.",
        normalized := none }
    else
      { ok := true, reason := none, normalized := some digits }

/-- `mustBeValidUSLength` of `src/lib/phonevalidator.ts`. -/
structure USLengthCheck where
  ok : Bool
  message : Option String
  tenDigit : Option String
deriving DecidableEq, Repr

/-- `mustBeValidUSLength` of `src/lib/phonevalidator.ts`: the pre-check's
verdict reshaped for the gate before the external API call. -/
def mustBeValidUSLength (input : String) : USLengthCheck :=
  let pre := nanpPrecheckUS input
  if pre.ok = false then { ok := false, message := pre.reason, tenDigit := none }
  else { ok := true, message := none, tenDigit := pre.normalized }

/-- `PhoneCheckOutcome` of `src/lib/phonevalidator.ts` (without the raw
debugging payload). -/
structure PhoneCheckOutcome where
  ok : Bool
  valid : Bool
  reason : Option String
  lineType : Option String
  carrier : Option String
  deactivated : Option Bool
deriving DecidableEq, Repr

/-- `phonevalidatorCheck` of `src/lib/phonevalidator.ts`, up to its single
network site: `call` abstracts `callPhoneValidator` (the only function that
performs a network request), and the second component counts how many times
it is invoked, so "no network call" is `= 0`.  `hasKey` is whether
`PHONEVALIDATOR_API_KEY` is configured. -/
def phonevalidatorCheck (hasKey : Bool) (call : String → PhoneCheckOutcome)
    (phone : Option String) (country : Option String) :
    PhoneCheckOutcome × Nat :=
  let phoneRaw := jsTrim (phone.getD "")
  if phoneRaw = "" then
    ({ ok := true, valid := false, reason := some "Enter your phone number.",
       lineType := none, carrier := none, deactivated := none }, 0)
  else if !hasKey then
    ({ ok := false, valid := true, reason := none, lineType := none,
       carrier := none, deactivated := none }, 0)
  else
    let c := jsToUpper (country.getD "")
    if c = "US" ∨ c = "CA" ∨ c = "" then
      let pre := mustBeValidUSLength phoneRaw
      if pre.ok = false then
        ({ ok := true, valid := false, reason := pre.message, lineType := none,
           carrier := none, deactivated := none }, 0)
      else (call ("+1" ++ pre.tenDigit.getD ""), 1)
    else
      let norm := normalizeDigits phoneRaw
      if norm.length < 10 then
        ({ ok := true, valid := false, reason := some "Number looks too short.",
           lineType := none, carrier := none, deactivated := none }, 0)
      else (call norm, 1)

/-! ## Unknown-verdict fallback resolver (`src/lib/validate.ts`, lines 98–120)

```ts
let finalResult = result;
if (result.valid === null &&
    (result.reason === "timeout_soft_pass" || result.reason === "provider_missing")) {
  const domain = getDomain(normalizedEmail);
  if (domain) {
    if (ENABLE_TRUSTED_EMAIL_FALLBACK && TRUSTED_EMAIL_DOMAINS.has(domain)) {
      finalResult = { valid: true, reason: "provisional_trusted" };
    } else if (ENABLE_MX_FALLBACK && !isRoleEmail(normalizedEmail)) {
      const hasMxRecords = await hasMx(domain);
      if (hasMxRecords) finalResult = { valid: true, reason: "provisional_mx" };
    }
  }
}
```
`mx` abstracts `hasMx` (the DNS MX resolution raced against its own
1500 ms timer; the loser of the race resolves to `false`).  The upgraded
verdicts are whole new records holding only `valid` and `reason`: every
other field, `confidence` included, is absent. -/

/-- The fallback block of `validateEmail` in `src/lib/validate.ts`
(the Mailboxlayer-era orchestrator). -/
def emailFallback (normalizedEmail : String) (mx : String → Bool)
    (result : EmailResult) : EmailResult :=
  if result.valid = none ∧ (result.reason = some "timeout_soft_pass" ∨
      result.reason = some "provider_missing") then
    match getDomain normalizedEmail with
    | none => result
    | some domain =>
        if ENABLE_TRUSTED_EMAIL_FALLBACK ∧ TRUSTED_EMAIL_DOMAINS.contains domain then
          { valid := some true, reason := some "provisional_trusted",
            score := none, confidence := none, disposable := none,
            role := none, catchAll := none, domain := none }
        else if ENABLE_MX_FALLBACK ∧ ¬ isRoleEmail normalizedEmail ∧ mx domain then
          { valid := some true, reason := some "provisional_mx",
            score := none, confidence := none, disposable := none,
            role := none, catchAll := none, domain := none }
        else result
  else result

/-! ## ZeroBounce-era orchestrator (the current `validateEmail` /
`validatePhone`, the revision importing `zerobounce.ts`,
`phonevalidator.ts` and `emailBlocklist.ts`) -/

/-- `ZBCheck` of `src/lib/zerobounce.ts`: the email adapter's return value.
Its `valid` field is a plain boolean. -/
structure ZBCheck where
  valid : Bool
  status : Option String
  sub_status : Option String
  reason : Option String
  score : Option Rat
  suggestion : Option String
deriving DecidableEq, Repr

/-- The record `validateEmail` stores in the cache (`emailValid`,
`emailReason`, `emailConfidence`, `emailScore`, `emailDisposable`,
`emailRole`, `emailCatchAll`, `emailDomain`). -/
structure EmailCached where
  emailValid : Option Bool
  emailReason : Option String
  emailConfidence : Option Confidence
  emailScore : Option Rat
  emailDisposable : Option Bool
  emailRole : Option Bool
  emailCatchAll : Option Bool
  emailDomain : Option String
deriving DecidableEq, Repr

/-- The verdict `validateEmail` reconstructs from a cache hit
(`confidence: cached.emailConfidence || "unknown"`). -/
def emailVerdictOfCached (c : EmailCached) : EmailResult :=
  { valid := c.emailValid, reason := c.emailReason,
    confidence := some (c.emailConfidence.getD .unknown),
    score := c.emailScore, disposable := c.emailDisposable,
    role := c.emailRole, catchAll := c.emailCatchAll,
    domain := c.emailDomain }

/-- The record `validateEmail` writes to the cache. -/
def emailCachedOfResult (r : EmailResult) : EmailCached :=
  { emailValid := r.valid, emailReason := r.reason,
    emailConfidence := r.confidence, emailScore := r.score,
    emailDisposable := r.disposable, emailRole := r.role,
    emailCatchAll := r.catchAll, emailDomain := r.domain }

/-- The mapping of a ZeroBounce result to the `EmailResult` shape
(`zbResult.score || 0` is `0` for an absent score;
`sub_status === "disposable"` etc. are booleans). -/
def emailResultOfZB (zb : ZBCheck) (normalizedEmail : String) : EmailResult :=
  { valid := some zb.valid, reason := zb.reason,
    confidence := some (if zb.valid then Confidence.good else Confidence.low),
    score := some (zb.score.getD 0),
    disposable := some (zb.sub_status = some "disposable"),
    role := some (zb.sub_status = some "role_based"),
    catchAll := some (zb.status = some "catch-all"),
    domain := getDomain normalizedEmail }

/-- The fallback block of the ZeroBounce-era `validateEmail`: same shape as
`emailFallback`, but triggered by the ZeroBounce adapter's user-facing
reasons for a timeout ("We couldn't verify this email right now.") and a
missing credential ("Email verification is not configured."), and its
upgraded records carry `confidence` (`good` / `medium`) and the domain. -/
def emailFallbackZB (normalizedEmail : String) (mx : String → Bool)
    (result : EmailResult) : EmailResult :=
  if result.valid = none ∧
      (result.reason = some "We couldn\x27t verify this email right now." ∨
       result.reason = some "Email verification is not configured.") then
    match getDomain normalizedEmail with
    | none => result
    | some domain =>
        if ENABLE_TRUSTED_EMAIL_FALLBACK ∧ TRUSTED_EMAIL_DOMAINS.contains domain then
          { valid := some true, reason := some "provisional_trusted",
            score := none, confidence := some .good, disposable := none,
            role := none, catchAll := none, domain := some domain }
        else if ENABLE_MX_FALLBACK ∧ ¬ isRoleEmail normalizedEmail ∧ mx domain then
          { valid := some true, reason := some "provisional_mx",
            score := none, confidence := some .medium, disposable := none,
            role := none, catchAll := none, domain := some domain }
        else result
  else result

/-- The orchestrator state for `validateEmail`: the `email:` cache entries
and the number of times the email provider adapter (`zerobounceCheck`) has
been invoked. -/
structure EmailVState where
  cache : Cache EmailCached
  providerCalls : Nat
deriving DecidableEq, Repr

/-- `validateEmail` of the current orchestrator (the revision with the
denylist): empty → `empty`; implausible → `bad_format`; blocked prefix /
domain → immediate policy rejection (before any cache or provider
interaction); then the `email:<normalized>` cache, the provider adapter
(`zb`, abstracting `zerobounceCheck` on the normalized address), the
fallback block, and a 15-minute cache write.  `mx` abstracts `hasMx`. -/
def validateEmail (zb : String → ZBCheck) (mx : String → Bool) (now : Nat)
    (email : Option String) (st : EmailVState) : EmailResult × EmailVState :=
  let e := email.getD ""
  if jsTrim e = "" then
    ({ valid := some false, reason := some "empty", score := none,
       confidence := some .low, disposable := none, role := none,
       catchAll := none, domain := none }, st)
  else if !isPlausibleEmail e then
    ({ valid := some false, reason := some "bad_format", score := none,
       confidence := some .low, disposable := none, role := none,
       catchAll := none, domain := none }, st)
  else if (isBlockedEmailPrefix email).blocked then
    ({ valid := some false,
       reason := some "This email address isn\x27t allowed (prefix).",
       score := some 0, confidence := some .low, disposable := none,
       role := none, catchAll := none, domain := none }, st)
  else if (isBlockedEmailDomain email).blocked then
    ({ valid := some false, reason := some "This email domain isn\x27t allowed.",
       score := some 0, confidence := some .low, disposable := none,
       role := none, catchAll := none, domain := none }, st)
  else
    let normalizedEmail := jsToLower (jsTrim e)
    let key := "email:" ++ normalizedEmail
    let gc := getCache st.cache key now
    match gc.1 with
    | some cached => (emailVerdictOfCached cached, ⟨gc.2, st.providerCalls⟩)
    | none =>
        let zbResult := zb normalizedEmail
        let result := emailResultOfZB zbResult normalizedEmail
        let finalResult := emailFallbackZB normalizedEmail mx result
        (finalResult,
         ⟨setCache gc.2 key (emailCachedOfResult finalResult) 900000 now,
          st.providerCalls + 1⟩)

/-- The record `validatePhone` stores in the cache. -/
structure PhoneCached where
  phoneValid : Option Bool
  phoneReason : Option String
  phoneConfidence : Option Confidence
  phoneLineType : Option String
  phoneCountry : Option String
  normalizedPhone : Option String
deriving DecidableEq, Repr

/-- The verdict `validatePhone` reconstructs from a cache hit. -/
def phoneVerdictOfCached (c : PhoneCached) : PhoneResult :=
  { valid := c.phoneValid, reason := c.phoneReason,
    confidence := some (c.phoneConfidence.getD .unknown),
    lineType := c.phoneLineType, country := c.phoneCountry,
    normalized := c.normalizedPhone }

/-- The record `validatePhone` writes to the cache. -/
def phoneCachedOfResult (r : PhoneResult) : PhoneCached :=
  { phoneValid := r.valid, phoneReason := r.reason,
    phoneConfidence := r.confidence, phoneLineType := r.lineType,
    phoneCountry := r.country, normalizedPhone := r.normalized }

/-- The mapping of a PhoneValidator outcome to the `PhoneResult` shape
(`confidence: phoneResult.ok ? "good" : "unknown"`). -/
def phoneResultOfOutcome (pr : PhoneCheckOutcome)
    (countryCode normalizedPhone : String) : PhoneResult :=
  { valid := some pr.valid, reason := pr.reason,
    confidence := some (if pr.ok then Confidence.good else Confidence.unknown),
    lineType := pr.lineType, country := some countryCode,
    normalized := some normalizedPhone }

/-- `phone.replace(/[^\d+]/g, "")`: keep digits and `'+'`. -/
def phoneKeyDigits (s : String) : String :=
  String.mk (s.data.filter (fun c => c.isDigit || c = '+'))

/-- The orchestrator state for `validatePhone`: the `phone:` cache entries
and the number of phone-adapter (`phonevalidatorCheck`) invocations. -/
structure PhoneVState where
  cache : Cache PhoneCached
  providerCalls : Nat
deriving DecidableEq, Repr

/-- `validatePhone` of the current orchestrator: empty → `empty`;
implausible digit count → `bad_format`; then the
`phone:<COUNTRY>:<digits>` cache, the PhoneValidator adapter (with the key
configured and `call` its network site), the mapping to the `PhoneResult`
shape, and a 15-minute cache write. -/
def validatePhone (hasKey : Bool) (call : String → PhoneCheckOutcome)
    (now : Nat) (phone : Option String) (country : Option String)
    (st : PhoneVState) : PhoneResult × PhoneVState :=
  let p := phone.getD ""
  if jsTrim p = "" then
    ({ valid := some false, reason := some "empty", lineType := none,
       confidence := some .low, country := none, normalized := none }, st)
  else if !isPlausiblePhoneBare p then
    ({ valid := some false, reason := some "bad_format", lineType := none,
       confidence := some .low, country := none, normalized := none }, st)
  else
    let normalizedPhone := jsTrim p
    let digits := phoneKeyDigits normalizedPhone
    let countryCode := jsToUpper (country.getD "")
    let key := "phone:" ++ countryCode ++ ":" ++ digits
    let gc := getCache st.cache key now
    match gc.1 with
    | some cached => (phoneVerdictOfCached cached, ⟨gc.2, st.providerCalls⟩)
    | none =>
        let pr := (phonevalidatorCheck hasKey call (some normalizedPhone)
          (some countryCode)).1
        let result := phoneResultOfOutcome pr countryCode normalizedPhone
        (result,
         ⟨setCache gc.2 key (phoneCachedOfResult result) 900000 now,
          st.providerCalls + 1⟩)

/-! ## Theorems: fixed-window rate limiter (claims C6, C10) -/

/-- Run a sequence of `rateLimit` calls (client, time) with a fixed limit
and window length, threading the window map. -/
def rateLimitRun (L W : Nat) (calls : List (String × Nat))
    (st : List (String × Window)) : List (String × Window) :=
  calls.foldl (fun s c => (rateLimit s c.1 L W c.2).2) st

theorem rateLimit_preserves_count_le (st : List (String × Window))
    (ip : String) (L W now : Nat)
    (hinv : ∀ k w, alookup k st = some w → w.count ≤ L) :
    ∀ k w, alookup k (rateLimit st ip L W now).2 = some w → w.count ≤ L := by
  intro k w hw
  obtain ⟨wc, wr⟩ := w
  show wc ≤ L
  simp only [rateLimit] at hw
  set key := if ip = "" then "unknown" else ip with hkeydef
  rcases hks : alookup key st with _ | w0
  · simp only [hks] at hw
    split_ifs at hw with hL <;> simp only [alookup_aset] at hw <;>
      by_cases hkk : key = k
    · simp [hkk, Window.mk.injEq] at hw; omega
    · simp only [if_neg hkk] at hw
      exact hinv k ⟨wc, wr⟩ hw
    · simp [hkk, Window.mk.injEq] at hw; omega
    · simp only [if_neg hkk] at hw
      exact hinv k ⟨wc, wr⟩ hw
  · simp only [hks] at hw
    by_cases hexp : now > w0.resetAt
    · simp only [if_pos hexp] at hw
      split_ifs at hw with hL <;> simp only [alookup_aset] at hw <;>
        by_cases hkk : key = k
      · simp [hkk, Window.mk.injEq] at hw; omega
      · simp only [if_neg hkk] at hw
        exact hinv k ⟨wc, wr⟩ hw
      · simp [hkk, Window.mk.injEq] at hw; omega
      · simp only [if_neg hkk] at hw
        exact hinv k ⟨wc, wr⟩ hw
    · simp only [if_neg hexp] at hw
      split_ifs at hw with hL
      · exact hinv k ⟨wc, wr⟩ hw
      · simp only [alookup_aset] at hw
        by_cases hkk : key = k
        · simp [hkk, Window.mk.injEq] at hw
          have := hinv _ _ hks
          omega
        · simp only [if_neg hkk] at hw
          exact hinv k ⟨wc, wr⟩ hw

/-- C6 (amended).  Fixed-window behavior of `rateLimit`: on a first attempt
(no stored window) or after the stored window expired (`now > resetAt`),
the window resets, the returned `resetAt` is `now + windowMs`, and — when
`limit ≥ 1` — the attempt is allowed with `remaining = limit - 1` and the
stored window becomes `{count := 1, resetAt := now + windowMs}`; an attempt
on a live window below the limit is allowed, increments the count and
returns `remaining = limit - count`; once `count ≥ limit`, an attempt in
the same (unexpired) window is denied with `remaining = 0` and the window
map is unchanged.  `rateLimit` never throws: it is a total function by
construction.  The claim's "after `resetAt` elapses a subsequent attempt
is allowed again" holds only for `limit ≥ 1` (see the counterexample with
`limit = 0`). -/
theorem rateLimit_fixed_window (st : List (String × Window)) (ip : String)
    (L W now : Nat) :
    ((alookup (if ip = "" then "unknown" else ip) st = none ∨
      (∃ w, alookup (if ip = "" then "unknown" else ip) st = some w ∧
        now > w.resetAt)) →
      (rateLimit st ip L W now).1.resetAt = now + W ∧
      (1 ≤ L →
        (rateLimit st ip L W now).1.allowed = true ∧
        (rateLimit st ip L W now).1.remaining = L - 1 ∧
        alookup (if ip = "" then "unknown" else ip) (rateLimit st ip L W now).2 =
          some (Window.mk 1 (now + W)))) ∧
    (∀ w, alookup (if ip = "" then "unknown" else ip) st = some w →
      ¬ now > w.resetAt → w.count < L →
      (rateLimit st ip L W now).1.allowed = true ∧
      (rateLimit st ip L W now).1.remaining = L - (w.count + 1) ∧
      (rateLimit st ip L W now).1.resetAt = w.resetAt ∧
      alookup (if ip = "" then "unknown" else ip) (rateLimit st ip L W now).2 =
        some (Window.mk (w.count + 1) w.resetAt)) ∧
    (∀ w, alookup (if ip = "" then "unknown" else ip) st = some w →
      ¬ now > w.resetAt → L ≤ w.count →
      (rateLimit st ip L W now).1 = RateResult.mk false 0 w.resetAt ∧
      (rateLimit st ip L W now).2 = st) := by
  simp only [rateLimit]
  generalize (if ip = "" then "unknown" else ip) = key
  refine ⟨?_, ?_, ?_⟩
  · rintro (hna | ⟨w0, hw0, hexp⟩)
    · simp only [hna]
      split_ifs with hL
      · exact ⟨rfl, by omega⟩
      · refine ⟨rfl, fun _ => ⟨rfl, rfl, ?_⟩⟩
        simp [alookup_aset]
    · simp only [hw0, if_pos hexp]
      split_ifs with hL
      · exact ⟨rfl, by omega⟩
      · refine ⟨rfl, fun _ => ⟨rfl, rfl, ?_⟩⟩
        simp [alookup_aset]
  · intro w hw hexp hcnt
    simp only [hw, if_neg hexp]
    split_ifs with hL
    · omega
    · refine ⟨rfl, rfl, rfl, ?_⟩
      simp [alookup_aset]
  · intro w hw hexp hcnt
    simp only [hw, if_neg hexp]
    split_ifs with hL
    · exact ⟨rfl, rfl⟩
    · omega

/-- C6, counterexample to the claim as stated: the claim quantifies over
every limit `L` and asserts that "after `resetAt` elapses a subsequent
attempt is allowed again"; with `limit = 0` the first call (at time 0,
window 60000 ms) stores a window with `resetAt = 60000`, and the attempt at
time 70000 > 60000 is still denied. -/
theorem rateLimit_reallow_cex :
    alookup "client" (rateLimit [] "client" 0 60000 0).2 =
      some (Window.mk 0 60000) ∧
    (rateLimit (rateLimit [] "client" 0 60000 0).2 "client" 0 60000 70000).1.allowed
      = false := by decide

theorem rateLimitRun_count_le (L W : Nat) (calls : List (String × Nat))
    (st : List (String × Window))
    (hinv : ∀ k w, alookup k st = some w → w.count ≤ L) :
    ∀ k w, alookup k (rateLimitRun L W calls st) = some w → w.count ≤ L := by
  induction calls generalizing st with
  | nil => exact hinv
  | cons c cs ih =>
      exact ih ((rateLimit st c.1 L W c.2).2)
        (rateLimit_preserves_count_le st c.1 L W c.2 hinv)

/-- C10 (amended).  Invariants of the rate limiter, for a fixed limit `L`
and window length `W`: (i) over any sequence of calls starting from the
empty window map, every stored window's count is at most `L`; (ii) an
attempt denied on a live window (`now ≤ resetAt`) leaves the whole window
map — in particular that window's count and resetAt — unchanged; (iii) with
`limit = 0` every attempt is denied, including the very first attempt in a
fresh window.  The claim's unqualified "a denied attempt leaves the
window's count and resetAt unchanged" fails for a denied attempt on an
expired window (possible only when `L = 0`), which first resets the window
(see the counterexample). -/
theorem rateLimit_invariants (L W : Nat) :
    (∀ calls key w, alookup key (rateLimitRun L W calls []) = some w →
      w.count ≤ L) ∧
    (∀ st ip now w, alookup (if ip = "" then "unknown" else ip) st = some w →
      ¬ now > w.resetAt → (rateLimit st ip L W now).1.allowed = false →
      (rateLimit st ip L W now).2 = st) ∧
    (∀ st ip now, (rateLimit st ip 0 W now).1.allowed = false) := by
  refine ⟨?_, ?_, ?_⟩
  · intro calls key w
    exact rateLimitRun_count_le L W calls []
      (by intro k w' h; simp [alookup] at h) key w
  · intro st ip now w hw hexp hden
    simp only [rateLimit, hw, if_neg hexp] at hden ⊢
    split_ifs at hden ⊢ with hL
    · rfl
  · intro st ip now
    rcases h : alookup (if ip = "" then "unknown" else ip) st with _ | w <;>
      simp [rateLimit, h]

/-- C10, counterexample to the claim as stated: with `limit = 0` the first
call (time 0, window 1000 ms) stores `{count := 0, resetAt := 1000}`; the
second call at time 2000 is denied (`allowed = false`), yet it mutates the
stored window to `{count := 0, resetAt := 3000}` — a denied attempt does
not always leave the window's `resetAt` unchanged. -/
theorem rateLimit_denied_mutation_cex :
    alookup "client" (rateLimit [] "client" 0 1000 0).2 =
      some (Window.mk 0 1000) ∧
    (rateLimit (rateLimit [] "client" 0 1000 0).2 "client" 0 1000 2000).1.allowed
      = false ∧
    alookup "client"
      (rateLimit (rateLimit [] "client" 0 1000 0).2 "client" 0 1000 2000).2 =
      some (Window.mk 0 3000) := by decide

/-! ## Theorems: Mailboxlayer adapter (claims C1, C5, C8) -/

/-- The hard-block disjunction of `mailboxlayerCheck`
(`badFormat || noMx || smtpFail || disposableBlocked || roleBlocked`). -/
def mlHardBlock (cfg : MLConfig) (data : MLData) : Prop :=
  data.format_valid ≠ some true ∨ data.mx_found ≠ some true ∨
    data.smtp_check = some false ∨
    (data.disposable = some true ∧ cfg.blockDisposable = true) ∨
    (data.role = some true ∧ cfg.blockRoleEmails = true)

instance (cfg : MLConfig) (data : MLData) : Decidable (mlHardBlock cfg data) := by
  unfold mlHardBlock; infer_instance

/-- C1.  For a well-formed provider response (one the adapter's `error`
guard does not catch), `mailboxlayerCheck` returns `valid = false` exactly
when a hard-block signal holds: format not valid, MX not found, SMTP
rejection, disposable with the disposable policy enabled, or role with the
role policy enabled.  When no such signal holds — in particular for any
(low) score — the verdict is `valid = true` with the confidence bucket
computed from the score: a low score alone never yields `valid = false`. -/
theorem mailboxlayer_hard_block_only (cfg : MLConfig) (data : MLData)
    (email : String) (herr : data.error = false) :
    ((mailboxlayerCheck cfg true (.success data) email).valid = some false ↔
      mlHardBlock cfg data) ∧
    (¬ mlHardBlock cfg data →
      (mailboxlayerCheck cfg true (.success data) email).valid = some true ∧
      (mailboxlayerCheck cfg true (.success data) email).confidence =
        some (computeConfidence cfg data.score) ∧
      (mailboxlayerCheck cfg true (.success data) email).score = data.score) := by
  simp only [mailboxlayerCheck, herr, Bool.false_eq_true, if_false,
    Bool.not_true]
  constructor
  · by_cases hb : mlHardBlock cfg data
    · rw [if_pos (by simpa [mlHardBlock] using hb)]
      simpa using hb
    · rw [if_neg (by simpa [mlHardBlock] using hb)]
      simpa using hb
  · intro hb
    rw [if_neg (by simpa [mlHardBlock] using hb)]
    exact ⟨rfl, rfl, rfl⟩

/-- C1, witness: a response with every deliverability signal positive and a
low score (0.3 < 0.5) is `valid = true` with `confidence = low` — the low
score does not block. -/
theorem mailboxlayer_hard_block_only_witness :
    (mailboxlayerCheck defaultMLConfig true
      (MLFetch.success (MLData.mk (some true) (some true) (some true)
        (some false) (some (3/10)) (some false) (some false) false))
      "a@b.com").valid = some true ∧
    (mailboxlayerCheck defaultMLConfig true
      (MLFetch.success (MLData.mk (some true) (some true) (some true)
        (some false) (some (3/10)) (some false) (some false) false))
      "a@b.com").confidence = some Confidence.low := by
  have h := mailboxlayer_hard_block_only defaultMLConfig
    (MLData.mk (some true) (some true) (some true) (some false)
      (some (3/10)) (some false) (some false) false) "a@b.com" rfl
  have h2 := h.2 (by decide)
  refine ⟨h2.1, ?_⟩
  rw [h2.2.1]
  norm_num [computeConfidence, defaultMLConfig]

/-- C5 (amended).  `computeConfidence` with the default thresholds is
exactly the claimed score→bucket map — `good` iff `score ≥ 0.80`, `medium`
iff `0.50 ≤ score < 0.80`, `low` iff `score < 0.50`, `unknown` iff the
score is absent — and it is the map the email adapter applies whenever a
confidence bucket is produced from a score (the non-blocked branch of
`mailboxlayerCheck`).  Confidence is, however, not a function of the score
on every verdict: hard-block verdicts fix `confidence = low` whatever the
score (see the counterexample), and the fallback resolver's upgrades carry
no score at all. -/
theorem computeConfidence_thresholds (s : Rat) :
    (computeConfidence defaultMLConfig (some s) = .good ↔ 4/5 ≤ s) ∧
    (computeConfidence defaultMLConfig (some s) = .medium ↔ 1/2 ≤ s ∧ s < 4/5) ∧
    (computeConfidence defaultMLConfig (some s) = .low ↔ s < 1/2) ∧
    computeConfidence defaultMLConfig none = .unknown ∧
    (∀ cfg data email, data.error = false → ¬ mlHardBlock cfg data →
      (mailboxlayerCheck cfg true (.success data) email).confidence =
        some (computeConfidence cfg data.score)) := by
  refine ⟨?_, ?_, ?_, rfl, ?_⟩
  · simp only [computeConfidence, defaultMLConfig]
    split_ifs with h1 h2
    · exact iff_of_true rfl h1
    · exact iff_of_false (by decide) h1
    · exact iff_of_false (by decide) h1
  · simp only [computeConfidence, defaultMLConfig]
    split_ifs with h1 h2
    · exact iff_of_false (by decide) (by rintro ⟨-, hlt⟩; linarith)
    · exact iff_of_true rfl ⟨h2, not_le.mp h1⟩
    · exact iff_of_false (by decide) (by rintro ⟨hge, -⟩; exact h2 hge)
  · simp only [computeConfidence, defaultMLConfig]
    split_ifs with h1 h2
    · exact iff_of_false (by decide) (by intro hlt; linarith)
    · exact iff_of_false (by decide) (by intro hlt; linarith)
    · exact iff_of_true rfl (not_le.mp h2)
  · intro cfg data email herr hb
    exact ((mailboxlayer_hard_block_only cfg data email herr).2 hb).2.1

/-- C5, counterexample to the claim as stated: a `mailboxlayerCheck`
verdict can carry `score = 0.9 ≥ 0.80` with `confidence = low` — the
role hard-block branch sets `confidence = low` regardless of the score, so
confidence is not a function of the score on every verdict carrying one. -/
theorem confidence_not_score_function_cex :
    (mailboxlayerCheck defaultMLConfig true
      (MLFetch.success (MLData.mk (some true) (some true) (some true)
        (some false) (some (9/10)) (some false) (some true) false))
      "a@b.com").score = some (9/10) ∧
    (mailboxlayerCheck defaultMLConfig true
      (MLFetch.success (MLData.mk (some true) (some true) (some true)
        (some false) (some (9/10)) (some false) (some true) false))
      "a@b.com").confidence = some Confidence.low ∧
    (4/5 : Rat) ≤ 9/10 ∧ Confidence.low ≠ Confidence.good := by
  refine ⟨?_, ?_, by norm_num, by decide⟩ <;>
    simp [mailboxlayerCheck, defaultMLConfig]

/-- C8.  Failure normalization at the adapter boundary: both adapters are
total functions of the fetch outcome (no exception escapes — a thrown
network / abort / JSON-parse exception is the `failure` outcome, which the
adapters' `catch` blocks map to a verdict), and `valid` is unknown
(`none`) exactly when the provider credential is missing, the fetch threw
(timeout soft-pass), or — for Mailboxlayer — the response carried an error
envelope; whenever `valid` is unknown the reason is one of
`provider_missing`, `timeout_soft_pass`, `provider_error`, so an unknown
verdict never comes from a hard-block rule (those produce
`valid = some false`). -/
theorem adapter_failures_normalized (cfg : MLConfig) (nvcfg : NVConfig)
    (hasKeyE hasKeyP : Bool) (fe : MLFetch) (fp : NVFetch)
    (email country : String) :
    ((mailboxlayerCheck cfg hasKeyE fe email).valid = none ↔
      (hasKeyE = false ∨ fe = MLFetch.failure ∨
        (∃ d, fe = MLFetch.success d ∧ d.error = true))) ∧
    ((mailboxlayerCheck cfg hasKeyE fe email).valid = none →
      (mailboxlayerCheck cfg hasKeyE fe email).reason = some "provider_missing" ∨
      (mailboxlayerCheck cfg hasKeyE fe email).reason = some "timeout_soft_pass" ∨
      (mailboxlayerCheck cfg hasKeyE fe email).reason = some "provider_error") ∧
    ((numverifyCheck nvcfg hasKeyP fp country).valid = none ↔
      (hasKeyP = false ∨ fp = NVFetch.failure)) ∧
    ((numverifyCheck nvcfg hasKeyP fp country).valid = none →
      (numverifyCheck nvcfg hasKeyP fp country).reason = some "provider_missing" ∨
      (numverifyCheck nvcfg hasKeyP fp country).reason = some "timeout_soft_pass") := by
  refine ⟨?_, ?_, ?_, ?_⟩
  · cases hasKeyE with
    | false => simp [mailboxlayerCheck]
    | true =>
        cases fe with
        | failure => simp [mailboxlayerCheck]
        | success d =>
            by_cases he : d.error
            · simp [mailboxlayerCheck, he]
            · simp only [mailboxlayerCheck, he, Bool.not_true]
              split_ifs <;> simp_all
  · cases hasKeyE with
    | false => simp [mailboxlayerCheck]
    | true =>
        cases fe with
        | failure => simp [mailboxlayerCheck]
        | success d =>
            by_cases he : d.error
            · simp [mailboxlayerCheck, he]
            · simp only [mailboxlayerCheck, he, Bool.not_true]
              split_ifs <;> simp_all
  · cases hasKeyP with
    | false => simp [numverifyCheck]
    | true =>
        cases fp with
        | failure => simp [numverifyCheck]
        | success d =>
            simp only [numverifyCheck]
            split_ifs <;> simp_all
  · cases hasKeyP with
    | false => simp [numverifyCheck]
    | true =>
        cases fp with
        | failure => simp [numverifyCheck]
        | success d =>
            simp only [numverifyCheck]
            split_ifs <;> simp_all

/-! ## Theorems: NANP pre-check (claim C7) -/

/-- C7 (amended).  For a NANP-routed phone validation (country hint `US`,
`CA` or absent, provider key configured): whenever the structural pre-check
fails — the digit string (after stripping one leading country `1` from an
11-digit number) does not have exactly 10 digits, or the area code or the
central-office (exchange) code starts with 0/1, or the exchange code
matches the N11 guard — `phonevalidatorCheck` returns `valid = false` with
the pre-check's bad-format reason and performs no network call (the
`callPhoneValidator` count is 0).  The second conjunct shows each of the
claimed structural conditions forces the pre-check to fail.  The claim's
concrete example is wrong, however: `"12025551911"` has exchange code 555,
which is not an N11 pattern, so it passes the pre-check and does reach the
network (see the counterexample); an input that is rejected this way is
`"2029111234"` (exchange 911). -/
theorem nanp_precheck_rejects_locally
    (call : String → PhoneCheckOutcome) (phone country : Option String)
    (hc : jsToUpper (country.getD "") = "US" ∨
      jsToUpper (country.getD "") = "CA" ∨ jsToUpper (country.getD "") = "")
    (hne : ¬ jsTrim (phone.getD "") = "")
    (hpre : (nanpPrecheckUS (jsTrim (phone.getD ""))).ok = false) :
    phonevalidatorCheck true call phone country =
      ({ ok := true, valid := false,
         reason := (nanpPrecheckUS (jsTrim (phone.getD ""))).reason,
         lineType := none, carrier := none, deactivated := none }, 0) ∧
    (∀ input,
      ((nanpStrip (normalizeDigits input)).length ≠ 10 ∨
       digitValAt (nanpStrip (normalizeDigits input)) 0 < 2 ∨
       digitValAt (nanpStrip (normalizeDigits input)) 3 < 2 ∨
       (digitValAt (nanpStrip (normalizeDigits input)) 4 = 1 ∧
        2 ≤ digitValAt (nanpStrip (normalizeDigits input)) 3)) →
      (nanpPrecheckUS input).ok = false) := by
  constructor
  · simp [phonevalidatorCheck, mustBeValidUSLength, hne, hc, hpre]
  · intro input h
    simp only [nanpPrecheckUS]
    split_ifs with hlen harea hexch hn11 <;> try rfl
    exfalso
    rcases h with h | h | h | ⟨h1, h2⟩
    · exact hlen h
    · exact harea (Or.inl h)
    · exact hexch (Or.inl h)
    · exact hn11 ⟨h1, h2, by omega⟩

/-- C7, counterexample to the claim's concrete example: the pre-check
accepts `"12025551911"` (its exchange code is 555, not an N11 pattern), so
`validatePhone("12025551911", "US")` is not rejected locally — the adapter
proceeds to its network call (count 1). -/
theorem nanp_example_passes_cex :
    (nanpPrecheckUS "12025551911").ok = true ∧
    (phonevalidatorCheck true
      (fun _ => PhoneCheckOutcome.mk true true none none none none)
      (some "12025551911") (some "US")).2 = 1 := by decide

/-- C7, witness: `"2029111234"` (exchange code 911, an N11 pattern) is
rejected locally with the N11 reason and zero network calls. -/
theorem nanp_precheck_witness :
    phonevalidatorCheck true
      (fun _ => PhoneCheckOutcome.mk true true none none none none)
      (some "2029111234") (some "US") =
      ({ ok := true, valid := false,
         reason := some "Central office code cannot be an N11 code.",
         lineType := none, carrier := none, deactivated := none }, 0) := by
  have h := nanp_precheck_rejects_locally
    (fun _ => PhoneCheckOutcome.mk true true none none none none)
    (some "2029111234") (some "US") (by decide) (by decide) (by decide)
  exact h.1.trans (by decide)

/-! ## Theorems: fallback resolver (claim C3) -/

/-- C3 (amended).  The fallback resolver (the fallback block of
`validateEmail`, `src/lib/validate.ts`): it runs only when the provider
verdict is unknown (`valid = null`) with reason `timeout_soft_pass` or
`provider_missing` — any other verdict, in particular one with reason
`provider_error`, passes through unchanged; when triggered it first
upgrades an email whose domain is on the trusted allowlist to
`{valid: true, reason: "provisional_trusted"}`, otherwise upgrades a
non-role address whose domain has MX records (per the `hasMx` oracle,
itself raced against its own short timeout) to
`{valid: true, reason: "provisional_mx"}`, and otherwise leaves the
verdict unchanged; the two upgrades are mutually exclusive.  Contrary to
the claim, the upgraded verdicts carry no `confidence` field (the source
builds them from `valid` and `reason` alone), so their confidence is
absent, not `good`/`medium` — see the counterexample. -/
theorem emailFallback_resolution (e : String) (mx : String → Bool)
    (r : EmailResult) :
    (¬ (r.valid = none ∧ (r.reason = some "timeout_soft_pass" ∨
        r.reason = some "provider_missing")) → emailFallback e mx r = r) ∧
    (∀ d, r.valid = none →
      (r.reason = some "timeout_soft_pass" ∨ r.reason = some "provider_missing") →
      getDomain e = some d → TRUSTED_EMAIL_DOMAINS.contains d = true →
      emailFallback e mx r =
        { valid := some true, reason := some "provisional_trusted",
          score := none, confidence := none, disposable := none,
          role := none, catchAll := none, domain := none }) ∧
    (∀ d, r.valid = none →
      (r.reason = some "timeout_soft_pass" ∨ r.reason = some "provider_missing") →
      getDomain e = some d → TRUSTED_EMAIL_DOMAINS.contains d = false →
      isRoleEmail e = false → mx d = true →
      emailFallback e mx r =
        { valid := some true, reason := some "provisional_mx",
          score := none, confidence := none, disposable := none,
          role := none, catchAll := none, domain := none }) ∧
    (∀ d, r.valid = none →
      (r.reason = some "timeout_soft_pass" ∨ r.reason = some "provider_missing") →
      getDomain e = some d → TRUSTED_EMAIL_DOMAINS.contains d = false →
      (isRoleEmail e = true ∨ mx d = false) → emailFallback e mx r = r) ∧
    (r.valid = none →
      (r.reason = some "timeout_soft_pass" ∨ r.reason = some "provider_missing") →
      getDomain e = none → emailFallback e mx r = r) := by
  refine ⟨?_, ?_, ?_, ?_, ?_⟩
  · intro h
    simp only [emailFallback]
    rw [if_neg h]
  · intro d hv hr hd ht
    have ht' : d ∈ TRUSTED_EMAIL_DOMAINS := by simpa using ht
    simp [emailFallback, hv, hr, hd, ht', ENABLE_TRUSTED_EMAIL_FALLBACK]
  · intro d hv hr hd ht hrole hmx
    have ht' : d ∉ TRUSTED_EMAIL_DOMAINS := by simpa using ht
    simp [emailFallback, hv, hr, hd, ht', hrole, hmx,
      ENABLE_TRUSTED_EMAIL_FALLBACK, ENABLE_MX_FALLBACK]
  · intro d hv hr hd ht hblock
    have ht' : d ∉ TRUSTED_EMAIL_DOMAINS := by simpa using ht
    rcases hblock with hrole | hmx
    · simp [emailFallback, hv, hr, hd, ht', hrole,
        ENABLE_TRUSTED_EMAIL_FALLBACK, ENABLE_MX_FALLBACK]
    · simp [emailFallback, hv, hr, hd, ht', hmx,
        ENABLE_TRUSTED_EMAIL_FALLBACK, ENABLE_MX_FALLBACK]
  · intro hv hr hd
    simp [emailFallback, hv, hr, hd]

/-- C3, counterexample to the claim as stated: on a trusted-domain upgrade
the claim asserts `confidence = good`, but the upgraded verdict has no
confidence field at all (`confidence = none`). -/
theorem emailFallback_no_confidence_cex :
    (emailFallback "user@gmail.com" (fun _ => false)
      { valid := none, reason := some "timeout_soft_pass", score := none,
        confidence := some .unknown, disposable := none, role := none,
        catchAll := none, domain := none }).reason = some "provisional_trusted" ∧
    (emailFallback "user@gmail.com" (fun _ => false)
      { valid := none, reason := some "timeout_soft_pass", score := none,
        confidence := some .unknown, disposable := none, role := none,
        catchAll := none, domain := none }).valid = some true ∧
    (emailFallback "user@gmail.com" (fun _ => false)
      { valid := none, reason := some "timeout_soft_pass", score := none,
        confidence := some .unknown, disposable := none, role := none,
        catchAll := none, domain := none }).confidence = none := by decide

/-! ## Theorems: orchestrator (claims C2, C4, C9) -/

/-- A concrete email-provider stub for closed witness statements. -/
def zbStub : ZBCheck :=
  { valid := true, status := some "valid", sub_status := some "",
    reason := none, score := some 1, suggestion := none }

/-- A concrete phone-provider stub for closed witness statements. -/
def pvStub : PhoneCheckOutcome :=
  { ok := true, valid := true, reason := none, lineType := some "CELL PHONE",
    carrier := none, deactivated := some false }

/-- C9.  For an absent, empty or whitespace-only email argument,
`validateEmail` returns `{valid: false, reason: "empty"}` (with
`confidence = low`) immediately, leaving the state — the cache and the
provider-invocation count — untouched: the early return precedes the
denylist checks, the cache lookup and the provider call. -/
theorem validateEmail_empty_short_circuit (zb : String → ZBCheck)
    (mx : String → Bool) (now : Nat) (st : EmailVState)
    (email : Option String) (h : jsTrim (email.getD "") = "") :
    validateEmail zb mx now email st =
      ({ valid := some false, reason := some "empty", score := none,
         confidence := some .low, disposable := none, role := none,
         catchAll := none, domain := none }, st) := by
  simp [validateEmail, h]

/-- C9, witness: a whitespace-only email at an arbitrary state. -/
theorem validateEmail_empty_witness :
    validateEmail (fun _ => zbStub) (fun _ => false) 0 (some "   ") ⟨[], 0⟩ =
      ({ valid := some false, reason := some "empty", score := none,
         confidence := some .low, disposable := none, role := none,
         catchAll := none, domain := none }, ⟨[], 0⟩) :=
  validateEmail_empty_short_circuit (fun _ => zbStub) (fun _ => false) 0
    ⟨[], 0⟩ (some "   ") (by decide)

/-- C2 (amended).  For an email that reaches the denylist with a blocked
domain (non-empty, plausible, prefix not blocked), `validateEmail` returns
immediately with `valid = false` and the user-facing rejection reason
"This email domain isn't allowed." — the reason code `blocked_domain` is
what the denylist check itself reports (second conjunct), not the verdict's
reason string — and the state is untouched: the provider adapter is never
invoked (call count unchanged) and no cache entry is read or written. -/
theorem validateEmail_blocked_domain (zb : String → ZBCheck)
    (mx : String → Bool) (now : Nat) (st : EmailVState) (e : String)
    (h1 : ¬ jsTrim e = "") (h2 : isPlausibleEmail e = true)
    (h3 : (isBlockedEmailPrefix (some e)).blocked = false)
    (h4 : (isBlockedEmailDomain (some e)).blocked = true) :
    validateEmail zb mx now (some e) st =
      ({ valid := some false,
         reason := some "This email domain isn\x27t allowed.",
         score := some 0, confidence := some .low, disposable := none,
         role := none, catchAll := none, domain := none }, st) ∧
    (isBlockedEmailDomain (some e)).reason = some "blocked_domain" := by
  constructor
  · simp [validateEmail, h1, h2, h3, h4]
  · simp only [isBlockedEmailDomain] at h4 ⊢
    rcases hd : getDomain e with _ | d
    · simp [hd] at h4
    · simp only [hd] at h4 ⊢
      split_ifs at h4 ⊢ with hb
      · rfl

/-- C2, counterexample to the claim as stated: for
`user@mailinator.com` the verdict's reason string is
"This email domain isn't allowed.", not `"blocked_domain"`. -/
theorem blocked_domain_reason_cex :
    (validateEmail (fun _ => zbStub) (fun _ => false) 0
      (some "user@mailinator.com") ⟨[], 0⟩).1.reason =
      some "This email domain isn\x27t allowed." ∧
    ¬ (validateEmail (fun _ => zbStub) (fun _ => false) 0
      (some "user@mailinator.com") ⟨[], 0⟩).1.reason = some "blocked_domain" ∧
    (validateEmail (fun _ => zbStub) (fun _ => false) 0
      (some "user@mailinator.com") ⟨[], 0⟩).1.valid = some false ∧
    (validateEmail (fun _ => zbStub) (fun _ => false) 0
      (some "user@mailinator.com") ⟨[], 0⟩).2.providerCalls = 0 := by decide

/-- C2, witness: `user@mailinator.com` at the empty initial state — the
full record equality, with the state returned unchanged (no cache entry,
provider call count 0). -/
theorem validateEmail_blocked_domain_witness :
    validateEmail (fun _ => zbStub) (fun _ => false) 0
      (some "user@mailinator.com") ⟨[], 0⟩ =
      ({ valid := some false,
         reason := some "This email domain isn\x27t allowed.",
         score := some 0, confidence := some .low, disposable := none,
         role := none, catchAll := none, domain := none }, ⟨[], 0⟩) :=
  (validateEmail_blocked_domain (fun _ => zbStub) (fun _ => false) 0 ⟨[], 0⟩
    "user@mailinator.com" (by decide) (by decide) (by decide) (by decide)).1

theorem emailFallbackZB_on_mapped (zbr : ZBCheck) (n : String)
    (mx : String → Bool) :
    emailFallbackZB n mx (emailResultOfZB zbr n) = emailResultOfZB zbr n := by
  simp [emailFallbackZB, emailResultOfZB]

theorem emailVerdict_roundtrip (r : EmailResult)
    (h : r.confidence.isSome = true) :
    emailVerdictOfCached (emailCachedOfResult r) = r := by
  obtain ⟨c, hc⟩ := Option.isSome_iff_exists.mp h
  cases r
  simp_all [emailVerdictOfCached, emailCachedOfResult]

theorem phoneVerdict_roundtrip (r : PhoneResult)
    (h : r.confidence.isSome = true) :
    phoneVerdictOfCached (phoneCachedOfResult r) = r := by
  obtain ⟨c, hc⟩ := Option.isSome_iff_exists.mp h
  cases r
  simp_all [phoneVerdictOfCached, phoneCachedOfResult]

/-- C4.  Idempotence within the cache TTL: starting from a fresh state, two
`validateEmail` calls with the same input (hence the same normalized
identifier) at times `t1` and `t2 ≤ t1 + 900000` (the 15-minute TTL)
return field-identical verdicts and invoke the email provider adapter at
most once across the two calls — and likewise for `validatePhone` with the
same phone and country.  The second call is served from the cache on the
key of the normalized identifier (`email:<lowercased-trimmed>` /
`phone:<COUNTRY>:<digits>`); local rejections (empty, bad format,
denylist) return the same verdict deterministically without any provider
call. -/
theorem validate_idempotent (zb : String → ZBCheck) (mx : String → Bool)
    (hasKey : Bool) (call : String → PhoneCheckOutcome) (t1 t2 : Nat)
    (email phone country : Option String) (httl : t2 ≤ t1 + 900000) :
    ((validateEmail zb mx t2 email (validateEmail zb mx t1 email ⟨[], 0⟩).2).1 =
        (validateEmail zb mx t1 email ⟨[], 0⟩).1 ∧
      (validateEmail zb mx t2 email
        (validateEmail zb mx t1 email ⟨[], 0⟩).2).2.providerCalls ≤ 1) ∧
    ((validatePhone hasKey call t2 phone country
        (validatePhone hasKey call t1 phone country ⟨[], 0⟩).2).1 =
        (validatePhone hasKey call t1 phone country ⟨[], 0⟩).1 ∧
      (validatePhone hasKey call t2 phone country
        (validatePhone hasKey call t1 phone country ⟨[], 0⟩).2).2.providerCalls ≤ 1) := by
  have hnle : ¬ t2 > t1 + 900000 := by omega
  constructor
  · -- email
    by_cases hmt : jsTrim (email.getD "") = ""
    · simp [validateEmail, hmt]
    · by_cases hpl : isPlausibleEmail (email.getD "") = true
      · by_cases hpre : (isBlockedEmailPrefix email).blocked = true
        · simp [validateEmail, hmt, hpl, hpre]
        · by_cases hdom : (isBlockedEmailDomain email).blocked = true
          · simp [validateEmail, hmt, hpl, hpre, hdom]
          · -- main path: provider call, cache write, then cache hit
            have h1 : validateEmail zb mx t1 email ⟨[], 0⟩ =
                (emailResultOfZB (zb (jsToLower (jsTrim (email.getD ""))))
                   (jsToLower (jsTrim (email.getD ""))),
                 ⟨[("email:" ++ jsToLower (jsTrim (email.getD "")),
                    ⟨emailCachedOfResult
                      (emailResultOfZB (zb (jsToLower (jsTrim (email.getD ""))))
                        (jsToLower (jsTrim (email.getD "")))),
                      t1 + 900000⟩)], 1⟩) := by
              simp [validateEmail, hmt, hpl, hpre, hdom, getCache, alookup,
                setCache, aset, emailFallbackZB_on_mapped]
            rw [h1]
            have hrt := emailVerdict_roundtrip
              (emailResultOfZB (zb (jsToLower (jsTrim (email.getD ""))))
                (jsToLower (jsTrim (email.getD "")))) rfl
            simp [validateEmail, hmt, hpl, hpre, hdom, getCache, alookup,
              hnle, hrt]
      · simp [validateEmail, hmt, hpl]
  · -- phone
    by_cases hmt : jsTrim (phone.getD "") = ""
    · simp [validatePhone, hmt]
    · by_cases hpl : isPlausiblePhoneBare (phone.getD "") = true
      · -- main path: adapter call, cache write, then cache hit
        have h1 : validatePhone hasKey call t1 phone country ⟨[], 0⟩ =
            (phoneResultOfOutcome
               (phonevalidatorCheck hasKey call (some (jsTrim (phone.getD "")))
                 (some (jsToUpper (country.getD "")))).1
               (jsToUpper (country.getD "")) (jsTrim (phone.getD "")),
             ⟨[("phone:" ++ jsToUpper (country.getD "") ++ ":" ++
                  phoneKeyDigits (jsTrim (phone.getD "")),
                ⟨phoneCachedOfResult (phoneResultOfOutcome
                   (phonevalidatorCheck hasKey call
                     (some (jsTrim (phone.getD "")))
                     (some (jsToUpper (country.getD "")))).1
                   (jsToUpper (country.getD "")) (jsTrim (phone.getD ""))),
                  t1 + 900000⟩)], 1⟩) := by
          simp [validatePhone, hmt, hpl, getCache, alookup, setCache, aset]
        rw [h1]
        have hrt := phoneVerdict_roundtrip
          (phoneResultOfOutcome
            (phonevalidatorCheck hasKey call (some (jsTrim (phone.getD "")))
              (some (jsToUpper (country.getD "")))).1
            (jsToUpper (country.getD "")) (jsTrim (phone.getD ""))) rfl
        simp [validatePhone, hmt, hpl, getCache, alookup, hnle, hrt]
      · simp [validatePhone, hmt, hpl]

/-- C4, witness: two calls at times 0 and 900000 (the TTL boundary) with
concrete inputs and provider stubs. -/
theorem validate_idempotent_witness :
    ((validateEmail (fun _ => zbStub) (fun _ => false) 900000 (some "a@b.com")
        (validateEmail (fun _ => zbStub) (fun _ => false) 0 (some "a@b.com")
          ⟨[], 0⟩).2).1 =
      (validateEmail (fun _ => zbStub) (fun _ => false) 0 (some "a@b.com")
        ⟨[], 0⟩).1 ∧
      (validateEmail (fun _ => zbStub) (fun _ => false) 900000 (some "a@b.com")
        (validateEmail (fun _ => zbStub) (fun _ => false) 0 (some "a@b.com")
          ⟨[], 0⟩).2).2.providerCalls ≤ 1) ∧
    ((validatePhone true (fun _ => pvStub) 900000 (some "2025551911")
        (some "US")
        (validatePhone true (fun _ => pvStub) 0 (some "2025551911") (some "US")
          ⟨[], 0⟩).2).1 =
      (validatePhone true (fun _ => pvStub) 0 (some "2025551911") (some "US")
        ⟨[], 0⟩).1 ∧
      (validatePhone true (fun _ => pvStub) 900000 (some "2025551911")
        (some "US")
        (validatePhone true (fun _ => pvStub) 0 (some "2025551911") (some "US")
          ⟨[], 0⟩).2).2.providerCalls ≤ 1) :=
  validate_idempotent (fun _ => zbStub) (fun _ => false) true (fun _ => pvStub)
    0 900000 (some "a@b.com") (some "2025551911") (some "US") (by omega)
